import Mathlib

/-!
Shallow embedding of src/backend/main.py (streamlit-cloudrun backend).

External collaborators (the google-auth token verifier, the Vertex AI
discoveryengine client, the base64 and json standard-library modules) are
modelled as oracle function parameters; everything the repository itself
computes is translated directly from the source.  Python truthiness on the
optional strings involved (os.environ.get results, the optional
conversation handle) is modelled explicitly: a value is falsy when it is
None or the empty string.
-/

/-- Python truthiness of a string: falsy exactly when empty. -/
def pyTruthyStr (s : String) : Bool := !(s == "")

/-- Python truthiness of an optional string: falsy when None or empty. -/
def pyTruthyOptStr : Option String → Bool
  | none => false
  | some s => pyTruthyStr s

/-- Lookup in a decoded-claims dictionary, with a default: dict.get(k, d). -/
def dictGet (d : List (String × String)) (k : String) (default : String) : String :=
  match d.find? (fun kv => kv.1 == k) with
  | some kv => kv.2
  | none => default

/-- The HTTPAuthorizationCredentials object produced by the HTTPBearer scheme:
the relevant attribute is credentials, the raw bearer token string. -/
structure Cred where
  credentials : String
deriving DecidableEq

/-- Environment configuration read by the auth gate: the AUDIENCE variable
(os.environ.get returns None when unset). -/
structure AuthEnv where
  AUDIENCE : Option String
deriving DecidableEq

/-- Model of fastapi.HTTPException: a status code and a detail string. -/
structure HTTPExceptionModel where
  status_code : Nat
  detail : String
deriving DecidableEq

/-- validate_iap_jwt from src/backend/main.py lines 36-53.

The external verifier id_token.verify_oauth2_token is the oracle
verify : token -> audience -> verified claims or failure; every failure
mode of the real verifier (bad signature, audience mismatch, expiry,
structurally invalid token) is an error value of the oracle.  The bearer
extraction is modelled by token : Option Cred; when no credential is
available, the attribute access token.credentials inside the try block
raises, which the except clause catches.  The body of the try block is a
fallible computation; any error is replaced by the one fixed
HTTPException(401) of lines 50-53, so the specific reason never reaches
the caller. -/
def validate_iap_jwt (env : AuthEnv)
    (verify : String → String → Except String (List (String × String)))
    (token : Option Cred) : Except HTTPExceptionModel String :=
  let body : Except String String :=
    match token with
    | none => .error "AttributeError: no credentials on missing bearer token"
    | some t =>
      let iap_jwt := t.credentials
      let expected_audience := env.AUDIENCE
      if !(pyTruthyOptStr expected_audience) then
        .error "AUDIENCE environment variable not set."
      else
        match verify iap_jwt (expected_audience.getD "") with
        | .error e => .error e
        | .ok decoded_token => .ok (dictGet decoded_token "email" "unknown_email")
  match body with
  | .ok email => .ok email
  | .error _ =>
      .error { status_code := 401, detail := "Invalid or missing IAP authorization token." }

/-!
Conversation proxy: converse_chat_with_followups and its callers.
-/

/-- Module-level configuration of src/backend/main.py lines 15-17:
PROJECT_ID and DATA_STORE_ID come from os.environ.get (None when unset),
LOCATION is the constant string "global" in the source but is kept as a
field so the three-way check of line 61 is stated as written. -/
structure Config where
  PROJECT_ID : Option String
  LOCATION : String
  DATA_STORE_ID : Option String
deriving DecidableEq

/-- The guard of line 61: all([PROJECT_ID, LOCATION, DATA_STORE_ID]). -/
def configOK (cfg : Config) : Bool :=
  pyTruthyOptStr cfg.PROJECT_ID && pyTruthyStr cfg.LOCATION && pyTruthyOptStr cfg.DATA_STORE_ID

/-- The parent resource path of line 76. -/
def parentPath (cfg : Config) : String :=
  let pid := cfg.PROJECT_ID.getD ""
  let loc := cfg.LOCATION
  let dsid := cfg.DATA_STORE_ID.getD ""
  "projects/" ++ pid ++ "/locations/" ++ loc ++
    "/collections/default_collection/dataStores/" ++ dsid

/-- client.serving_config_path of lines 93-98 (standard discoveryengine
resource-path layout, with serving_config fixed to default_config). -/
def servingConfigPath (cfg : Config) : String :=
  let pid := cfg.PROJECT_ID.getD ""
  let loc := cfg.LOCATION
  let dsid := cfg.DATA_STORE_ID.getD ""
  "projects/" ++ pid ++ "/locations/" ++ loc ++ "/dataStores/" ++ dsid ++
    "/servingConfigs/default_config"

/-- SearchRequest.ContentSearchSpec.SummarySpec as built on lines 105-108. -/
structure SummarySpec where
  summary_result_count : Nat
  include_citations : Bool
deriving DecidableEq

/-- ConverseConversationRequest as built on lines 101-109 (the TextInput
wrapper around the query carries only the input string). -/
structure ConverseConversationRequest where
  name : String
  query : String
  serving_config : String
  summary_spec : SummarySpec
deriving DecidableEq

/-- The summary message of a converse response: summary.summary_text. -/
structure SummaryMsg where
  summary_text : String
deriving DecidableEq

/-- The reply message of a converse response; its summary sub-message is
optional (proto presence, tested by truthiness on line 114). -/
structure ReplyMsg where
  summary : Option SummaryMsg
deriving DecidableEq

/-- The conversation resource inside a converse response. -/
structure ConversationMsg where
  name : String
deriving DecidableEq

/-- ConverseConversationResponse as consumed on lines 114-116: reply (with
optional summary) and an optional conversation (truthiness-tested). -/
structure ConverseResponse where
  reply : ReplyMsg
  conversation : Option ConversationMsg
deriving DecidableEq

/-- The two outbound calls the proxy can make against the external
conversational-search service. -/
inductive ExtCall where
  | createConversation (parent : String)
  | converseConversation (request : ConverseConversationRequest)
deriving DecidableEq

/-- The external conversational-search service, as the two operations the
source invokes: create_conversation (parent path to created conversation
name, or failure) and converse_conversation (request to response, or
failure).  Failure values carry str(e) of the raised exception. -/
structure ExtWorld where
  create_conversation : String → Except String String
  converse_conversation : ConverseConversationRequest → Except String ConverseResponse

/-- The value converse_chat_with_followups returns: either the error dict
of lines 87-91 (keys summary, results, conversation_name — note the
conversation_name value is literally None there) or the 2-tuple of
line 116 / line 121. -/
inductive ConverseChatResult where
  | errorDict (summary : String) (results : List String) (conversation_name : Option String)
  | pair (reply : String) (conversation_name : String)
deriving DecidableEq

/-- Outcome of one call to converse_chat_with_followups: the returned value
(or the raised ValueError of line 62, as an error) together with the trace
of external calls actually made. -/
structure TurnOutcome where
  result : Except String ConverseChatResult
  calls : List ExtCall

/-- The ConverseConversationRequest built on lines 101-109, for the
resolved conversation handle and the raw query. -/
def build_converse_request (cfg : Config) (conversation_name : String)
    (query : String) : ConverseConversationRequest :=
  { name := conversation_name
    query := query
    serving_config := servingConfigPath cfg
    summary_spec := { summary_result_count := 5, include_citations := true } }

/-- Lines 93-121 of converse_chat_with_followups: build the request, call
converse_conversation, and map success (summary extraction with the
"No summary available" substitution of line 114, handle taken from the
response conversation when present) or failure (apologetic message
embedding str(e), handle preserved).  A factoring of the source: both the
created-handle and supplied-handle branches fall through to this code. -/
def converseStep (cfg : Config) (w : ExtWorld) (query : String)
    (conversation_name : String) (callsSoFar : List ExtCall) : TurnOutcome :=
  let request_payload := build_converse_request cfg conversation_name query
  match w.converse_conversation request_payload with
  | .ok response =>
      let summary :=
        match response.reply.summary with
        | some s => s.summary_text
        | none => "No summary available"
      let handle :=
        match response.conversation with
        | some c => c.name
        | none => conversation_name
      { result := .ok (.pair summary handle)
        calls := callsSoFar ++ [.converseConversation request_payload] }
  | .error e =>
      { result := .ok (.pair ("Sorry, I encountered an error: " ++ e ++ ". Please try again.")
          conversation_name)
        calls := callsSoFar ++ [.converseConversation request_payload] }

/-- converse_chat_with_followups, src/backend/main.py lines 56-121.

Line 61 raises ValueError when any of the three identifiers is falsy
(modelled as the error result, with no external call made).  Line 74
tests the handle by truthiness: None or the empty string takes the
create branch; on create failure the dict of lines 87-91 is returned at
once.  The client construction of lines 64-71 performs no repository
logic and is absorbed into the oracle. -/
def converse_chat_with_followups (cfg : Config) (w : ExtWorld) (query : String)
    (conversation_name : Option String) : TurnOutcome :=
  if !(configOK cfg) then
    { result := .error "PROJECT_ID, LOCATION, and DATASTORE_ID must be set."
      calls := [] }
  else if !(pyTruthyOptStr conversation_name) then
    let parent := parentPath cfg
    match w.create_conversation parent with
    | .error e =>
        { result := .ok (.errorDict ("Unable to start conversation: " ++ e) [] none)
          calls := [.createConversation parent] }
    | .ok created => converseStep cfg w query created [.createConversation parent]
  else
    converseStep cfg w query (conversation_name.getD "") []

/-- QueryRequest pydantic model (lines 27-29). -/
structure QueryRequest where
  query : String
  conversation_id : Option String
deriving DecidableEq

/-- QueryResponse pydantic model (lines 31-33): conversation_id is a
non-optional str. -/
structure QueryResponse where
  reply : String
  conversation_id : String
deriving DecidableEq

/-- handle_query, lines 124-135, after the auth dependency has succeeded.

Line 131 unpacks the return value of converse_chat_with_followups into
two names.  When that value is the 2-tuple, unpacking succeeds and the
QueryResponse is built.  When it is the 3-key dict of the
create-failure branch, Python iterates the dict and raises
ValueError: too many values to unpack (expected 2); that and the
propagated ValueError of line 62 are modelled as error results (the
framework turns an unhandled exception into a server error, not a
QueryResponse). -/
def handle_query (cfg : Config) (w : ExtWorld) (query_request : QueryRequest) :
    Except String QueryResponse :=
  match (converse_chat_with_followups cfg w query_request.query
          query_request.conversation_id).result with
  | .error e => .error e
  | .ok (.pair reply_text conversation_id) =>
      .ok { reply := reply_text, conversation_id := conversation_id }
  | .ok (.errorDict _ _ _) => .error "ValueError: too many values to unpack (expected 2)"

/-- handle_noauth, lines 170-183: identical body to handle_query with a
fixed synthetic identity and no auth dependency. -/
def handle_noauth (cfg : Config) (w : ExtWorld) (query_request : QueryRequest) :
    Except String QueryResponse :=
  match (converse_chat_with_followups cfg w query_request.query
          query_request.conversation_id).result with
  | .error e => .error e
  | .ok (.pair reply_text conversation_id) =>
      .ok { reply := reply_text, conversation_id := conversation_id }
  | .ok (.errorDict _ _ _) => .error "ValueError: too many values to unpack (expected 2)"

/-!
Echo route: JWT introspection helper.
-/

/-- A decoded JSON leaf value, as json.loads can yield inside the decoded
header or payload dictionaries. -/
inductive JsonVal where
  | str (s : String)
  | num (n : Int)
  | boolVal (b : Bool)
  | null
deriving DecidableEq

/-- A decoded JSON object: what json.loads yields on a JWT header or
payload segment. -/
abbrev JsonObj := List (String × JsonVal)

/-- Splitting a character list at every dot, keeping empty segments: the
semantics of the Python str.split call with a dot separator. -/
def splitDotChars : List Char → List (List Char)
  | [] => [[]]
  | c :: rest =>
    let r := splitDotChars rest
    if c = '.' then [] :: r
    else
      match r with
      | [] => [[c]]
      | s :: ss => (c :: s) :: ss

/-- raw.split of the dot separator, on strings. -/
def pySplitDot (s : String) : List String := (splitDotChars s.data).map String.mk

/-- Lines 146-158 of handle_echo.  decoded_header and decoded_payload start
as empty dicts; the try block unpacks raw_jwt.split of the dot into
exactly three names (any other count raises ValueError), then assigns
decoded_header from the base64url+json decode of header plus two padding
characters, then assigns decoded_payload likewise.  The except clause
keeps whatever has been assigned so far: a failure while decoding the
payload leaves the already-assigned decoded_header in place.  The
standard-library stages base64.urlsafe_b64decode combined with the utf-8
byte decode are the oracle b64, and json.loads is the oracle jloads. -/
def decode_jwt_segments (b64 : String → Except String String)
    (jloads : String → Except String JsonObj)
    (raw_jwt : String) : JsonObj × JsonObj :=
  match pySplitDot raw_jwt with
  | [header, payload, _signature] =>
      match (b64 (header ++ "==")).bind jloads with
      | .ok decoded_header =>
          match (b64 (payload ++ "==")).bind jloads with
          | .ok decoded_payload => (decoded_header, decoded_payload)
          | .error _ => (decoded_header, [])
      | .error _ => ([], [])
  | _ => ([], [])

/-- The JSON body handle_echo returns (lines 160-167), flattened. -/
structure EchoResponse where
  echo : String
  raw_token : String
  decoded_header : JsonObj
  decoded_payload : JsonObj
deriving DecidableEq

/-- handle_echo, lines 138-167, after the auth dependency has succeeded;
total: decode failures never propagate. -/
def handle_echo (b64 : String → Except String String)
    (jloads : String → Except String JsonObj)
    (query : String) (token : Cred) : EchoResponse :=
  let raw_jwt := token.credentials
  let parts := decode_jwt_segments b64 jloads raw_jwt
  { echo := query
    raw_token := raw_jwt
    decoded_header := parts.1
    decoded_payload := parts.2 }

/-!
Module state and route dispatch, for the frame property of the
module-level conversation_history dict.
-/

/-- The module-level in-memory store of line 24, initialised to the empty
dict. -/
def conversation_history : List (String × String) := []

/-- The mutable module state of the backend process: the one module-level
mutable structure is conversation_history. -/
structure AppState where
  conversation_history : List (String × String)
deriving DecidableEq

/-- An inbound request to one of the three routes, with the bearer
credential the auth scheme extracted (None when the header is missing,
for the routes that declare the dependency). -/
inductive Route where
  | query (token : Option Cred) (query_request : QueryRequest)
  | echo (token : Cred) (q : String)
  | noauth (query_request : QueryRequest)

/-- What a route evaluation produces: a JSON body, an HTTPException, or an
unhandled exception surfaced by the framework as a server error. -/
inductive RouteResult where
  | queryOk (r : QueryResponse)
  | echoOk (r : EchoResponse)
  | httpError (status_code : Nat) (detail : String)
  | serverError (msg : String)
deriving DecidableEq

/-- The response computed for one inbound request.  No handler mentions
conversation_history, so the response is a function of the request,
the configuration and the oracles only. -/
def route_response (cfg : Config) (env : AuthEnv)
    (verify : String → String → Except String (List (String × String)))
    (w : ExtWorld) (b64 : String → Except String String)
    (jloads : String → Except String JsonObj) : Route → RouteResult
  | .query token query_request =>
      match validate_iap_jwt env verify token with
      | .error h => .httpError h.status_code h.detail
      | .ok _user_email =>
          match handle_query cfg w query_request with
          | .ok resp => .queryOk resp
          | .error m => .serverError m
  | .echo token q =>
      match validate_iap_jwt env verify (some token) with
      | .error h => .httpError h.status_code h.detail
      | .ok _user_email => .echoOk (handle_echo b64 jloads q token)
  | .noauth query_request =>
      match handle_noauth cfg w query_request with
      | .ok resp => .queryOk resp
      | .error m => .serverError m

/-- One request-handling step of the process: the response, and the module
state afterwards.  The source never reads or writes conversation_history
in any handler, so the state passes through untouched. -/
def app_step (cfg : Config) (env : AuthEnv)
    (verify : String → String → Except String (List (String × String)))
    (w : ExtWorld) (b64 : String → Except String String)
    (jloads : String → Except String JsonObj)
    (st : AppState) (r : Route) : RouteResult × AppState :=
  (route_response cfg env verify w b64 jloads r, st)

/-!
Concrete fixtures used by witnesses and concrete evaluations.
-/

/-- A configuration with all three identifiers set. -/
def testConfig : Config :=
  { PROJECT_ID := some "proj1", LOCATION := "global", DATA_STORE_ID := some "store1" }

/-- An external service whose create operation fails with str(e) boom. -/
def worldCreateFails : ExtWorld :=
  { create_conversation := fun _ => .error "boom"
    converse_conversation := fun req =>
      .ok { reply := { summary := some { summary_text := "a summary" } }
            conversation := some { name := req.name } } }

/-- An external service that creates sessions but whose converse operation
fails with str(e) down. -/
def worldConverseFails : ExtWorld :=
  { create_conversation := fun parent => .ok (parent ++ "/conversations/c1")
    converse_conversation := fun _ => .error "down" }

/-- An external service whose converse responses carry no summary. -/
def worldNoSummary : ExtWorld :=
  { create_conversation := fun parent => .ok (parent ++ "/conversations/c1")
    converse_conversation := fun req =>
      .ok { reply := { summary := none }
            conversation := some { name := req.name } } }

/-!
Claim theorems.
-/

/-- C1 (code bug evidence): with a valid configuration and a failing
create-session operation, the proxy function returns the 3-key error dict
whose summary embeds the failure detail and whose conversation_name is
None, exactly as the spec asks; but handle_query, unpacking that dict
into two names, raises ValueError, so the turn raises instead of
completing as a well-formed response. -/
theorem c1_create_failure_turn_raises :
    (converse_chat_with_followups testConfig worldCreateFails "hello" none).result
      = .ok (.errorDict "Unable to start conversation: boom" [] none)
    ∧ handle_query testConfig worldCreateFails { query := "hello", conversation_id := none }
      = .error "ValueError: too many values to unpack (expected 2)" :=
  ⟨rfl, rfl⟩

/-- C2: whenever the input handle is a non-empty string, the configuration
is complete and the external converse operation fails with detail e, the
turn returns the apologetic reply embedding e together with the input
handle unchanged. -/
theorem c2_converse_failure_preserves_handle (cfg : Config) (w : ExtWorld)
    (query s e : String) (hs : s ≠ "") (hc : configOK cfg = true)
    (hv : w.converse_conversation (build_converse_request cfg s query) = .error e) :
    (converse_chat_with_followups cfg w query (some s)).result =
      .ok (.pair ("Sorry, I encountered an error: " ++ e ++ ". Please try again.") s) := by
  have hts : pyTruthyOptStr (some s) = true := by
    simp [pyTruthyOptStr, pyTruthyStr, hs]
  simp [converse_chat_with_followups, hc, hts, converseStep, Option.getD, hv]

/-- C2 witness: a concrete failing converse turn on handle c77 keeps c77. -/
theorem c2_converse_failure_preserves_handle_witness :
    (converse_chat_with_followups testConfig worldConverseFails "hi" (some "c77")).result =
      .ok (.pair ("Sorry, I encountered an error: " ++ "down" ++ ". Please try again.") "c77") :=
  c2_converse_failure_preserves_handle testConfig worldConverseFails "hi" "c77" "down"
    (by decide) rfl rfl

/-- C5: whenever the converse response carries no summary, the turn
completes successfully with the literal reply No summary available (the
handle coming from the response conversation when present, else the
resolved one); a missing summary is not an error. -/
theorem c5_missing_summary_placeholder (cfg : Config) (w : ExtWorld)
    (query s : String) (resp : ConverseResponse) (hs : s ≠ "")
    (hc : configOK cfg = true)
    (hv : w.converse_conversation (build_converse_request cfg s query) = .ok resp)
    (hsum : resp.reply.summary = none) :
    (converse_chat_with_followups cfg w query (some s)).result =
      .ok (.pair "No summary available"
        (match resp.conversation with
         | some c => c.name
         | none => s)) := by
  have hts : pyTruthyOptStr (some s) = true := by
    simp [pyTruthyOptStr, pyTruthyStr, hs]
  simp [converse_chat_with_followups, hc, hts, converseStep, Option.getD, hv, hsum]

/-- C5 witness: a concrete summary-less response yields the placeholder. -/
theorem c5_missing_summary_placeholder_witness :
    (converse_chat_with_followups testConfig worldNoSummary "hi" (some "c9")).result =
      .ok (.pair "No summary available" "c9") :=
  c5_missing_summary_placeholder testConfig worldNoSummary "hi" "c9"
    { reply := { summary := none }, conversation := some { name := "c9" } }
    (by decide) rfl rfl rfl

/-- C7: whenever any of the three required identifiers is unset or empty,
the proxy raises the configuration ValueError before making any external
call; the outcome is an error, not a successful conversational reply. -/
theorem c7_missing_config_fails_fast (cfg : Config) (w : ExtWorld) (query : String)
    (handle : Option String) (h : configOK cfg = false) :
    converse_chat_with_followups cfg w query handle =
      { result := .error "PROJECT_ID, LOCATION, and DATASTORE_ID must be set."
        calls := [] } := by
  simp [converse_chat_with_followups, h]

/-- C7 witness: with PROJECT_ID unset, a turn with no handle fails fast
and makes no external call. -/
theorem c7_missing_config_fails_fast_witness :
    converse_chat_with_followups { PROJECT_ID := none, LOCATION := "global", DATA_STORE_ID := some "store1" }
      worldCreateFails "q" none =
      { result := .error "PROJECT_ID, LOCATION, and DATASTORE_ID must be set."
        calls := [] } :=
  c7_missing_config_fails_fast _ worldCreateFails "q" none (by decide)

/-- C10: a supplied empty-string handle is treated exactly as an absent
one: the line 74 test is Python truthiness, so the whole turn computes
identically. -/
theorem c10_empty_handle_treated_as_absent (cfg : Config) (w : ExtWorld) (query : String) :
    converse_chat_with_followups cfg w query (some "") =
      converse_chat_with_followups cfg w query none := rfl

/-- C3: with no input handle the first external call of the turn is the
create-session call on the configured parent resource (so any converse
call comes after it); with a non-empty input handle no create-session
call is ever made. -/
theorem c3_create_iff_no_handle (cfg : Config) (w : ExtWorld) (query : String) :
    (configOK cfg = true →
      ((converse_chat_with_followups cfg w query none).calls).head? =
        some (.createConversation (parentPath cfg)))
    ∧ (∀ s : String, s ≠ "" → ∀ p : String,
        ExtCall.createConversation p ∉
          (converse_chat_with_followups cfg w query (some s)).calls) := by
  constructor
  · intro hc
    cases hcr : w.create_conversation (parentPath cfg) with
    | error e => simp [converse_chat_with_followups, hc, hcr, pyTruthyOptStr]
    | ok created =>
        cases hcv : w.converse_conversation (build_converse_request cfg created query) with
        | ok response =>
            simp [converse_chat_with_followups, hc, hcr, pyTruthyOptStr, converseStep, hcv]
        | error e =>
            simp [converse_chat_with_followups, hc, hcr, pyTruthyOptStr, converseStep, hcv]
  · intro s hs p
    have hts : pyTruthyOptStr (some s) = true := by
      simp [pyTruthyOptStr, pyTruthyStr, hs]
    cases hc : configOK cfg with
    | false => simp [converse_chat_with_followups, hc]
    | true =>
        cases hcv : w.converse_conversation (build_converse_request cfg s query) with
        | ok response => simp [converse_chat_with_followups, hc, hts, converseStep, hcv]
        | error e => simp [converse_chat_with_followups, hc, hts, converseStep, hcv]

/-- C3 witness: a concrete no-handle turn leads with the create call, and a
concrete turn on handle c1 contains no create call. -/
theorem c3_create_iff_no_handle_witness :
    ((converse_chat_with_followups testConfig worldConverseFails "hi" none).calls).head? =
      some (.createConversation (parentPath testConfig))
    ∧ ExtCall.createConversation "x" ∉
        (converse_chat_with_followups testConfig worldConverseFails "hi" (some "c1")).calls :=
  ⟨(c3_create_iff_no_handle testConfig worldConverseFails "hi").1 rfl,
   (c3_create_iff_no_handle testConfig worldConverseFails "hi").2 "c1" (by decide) "x"⟩

/-- C4: on every failing input — missing credential, AUDIENCE unset or
empty (misconfiguration included), or any verifier failure (bad
signature, audience mismatch, expiry, structural invalidity) —
validate_iap_jwt fails with the one fixed 401 HTTPException; the detail
is a constant independent of the failure reason, so the reason never
reaches the caller. -/
theorem c4_auth_failures_yield_fixed_401 (env : AuthEnv)
    (verify : String → String → Except String (List (String × String)))
    (token : Option Cred)
    (h : token = none ∨ pyTruthyOptStr env.AUDIENCE = false ∨
        ∃ c e, token = some c ∧ verify c.credentials (env.AUDIENCE.getD "") = .error e) :
    validate_iap_jwt env verify token =
      .error { status_code := 401, detail := "Invalid or missing IAP authorization token." } := by
  rcases h with rfl | hA | ⟨c, e, rfl, hv⟩
  · rfl
  · cases token with
    | none => rfl
    | some t => simp [validate_iap_jwt, hA]
  · cases hA : pyTruthyOptStr env.AUDIENCE with
    | false => simp [validate_iap_jwt, hA]
    | true => simp [validate_iap_jwt, hA, hv]

/-- C4 witness: with AUDIENCE unset and no credential, the gate fails with
the fixed generic 401. -/
theorem c4_auth_failures_yield_fixed_401_witness :
    validate_iap_jwt { AUDIENCE := none } (fun _ _ => .ok []) none =
      .error { status_code := 401, detail := "Invalid or missing IAP authorization token." } :=
  c4_auth_failures_yield_fixed_401 _ _ _ (Or.inl rfl)

/-- C8: whenever the audience is configured and the verifier accepts the
token, validate_iap_jwt returns the email claim of the verified claims,
with the default unknown_email sentinel when no email claim is present
(absence is not an error). -/
theorem c8_success_returns_email_claim (env : AuthEnv)
    (verify : String → String → Except String (List (String × String)))
    (c : Cred) (claims : List (String × String))
    (hA : pyTruthyOptStr env.AUDIENCE = true)
    (hv : verify c.credentials (env.AUDIENCE.getD "") = .ok claims) :
    validate_iap_jwt env verify (some c) = .ok (dictGet claims "email" "unknown_email")
    ∧ (claims.find? (fun kv => kv.1 == "email") = none →
        validate_iap_jwt env verify (some c) = .ok "unknown_email") := by
  have h1 : validate_iap_jwt env verify (some c) =
      .ok (dictGet claims "email" "unknown_email") := by
    simp [validate_iap_jwt, hA, hv]
  refine ⟨h1, fun hnone => ?_⟩
  rw [h1]
  simp [dictGet, hnone]

/-- C8 witness: a verified token with an email claim returns it; one
without returns unknown_email. -/
theorem c8_success_returns_email_claim_witness :
    validate_iap_jwt { AUDIENCE := some "aud1" }
        (fun _ _ => .ok [("email", "user@example.com")])
        (some { credentials := "tok" }) = .ok "user@example.com"
    ∧ validate_iap_jwt { AUDIENCE := some "aud1" }
        (fun _ _ => .ok [("sub", "s1")])
        (some { credentials := "tok" }) = .ok "unknown_email" :=
  ⟨(c8_success_returns_email_claim { AUDIENCE := some "aud1" }
      (fun _ _ => .ok [("email", "user@example.com")]) { credentials := "tok" }
      [("email", "user@example.com")] rfl rfl).1,
   (c8_success_returns_email_claim { AUDIENCE := some "aud1" }
      (fun _ _ => .ok [("sub", "s1")]) { credentials := "tok" }
      [("sub", "s1")] rfl rfl).2 rfl⟩

/-- C6 counterexample: a token whose header segment decodes to the
non-empty object with key a but whose payload segment fails base64
decoding.  The oracles mirror the standard library at the probed inputs:
the header plus two padding characters is valid base64url of the object
text, while the payload segment plus padding is rejected.  The helper
returns the decoded non-empty header map, refuting the claim that both
returned maps are empty on every decode failure. -/
theorem c6_decode_failure_counterexample :
    decode_jwt_segments
        (fun s => if s == "eyJhIjoxfQ==" then .ok "\x7b\"a\":1\x7d"
                  else .error "binascii.Error: Invalid base64-encoded string")
        (fun s => if s == "\x7b\"a\":1\x7d" then .ok [("a", JsonVal.num 1)]
                  else .error "json.decoder.JSONDecodeError")
        "eyJhIjoxfQ.!.x"
      = ([("a", JsonVal.num 1)], [])
    ∧ ([("a", JsonVal.num 1)] : JsonObj) ≠ [] := by
  exact ⟨rfl, by decide⟩

/-- C6 amended: on decode failure the helper completes normally and the
decoded payload map is empty; the decoded header map is also empty when
the failure occurs at the split or while decoding the header, but when
the payload decode is the failing stage the header map holds the
already-decoded header. -/
theorem c6_amended_decode_failure (b64 : String → Except String String)
    (jloads : String → Except String JsonObj) (raw : String) :
    ((∀ h p s : String, pySplitDot raw ≠ [h, p, s]) →
        decode_jwt_segments b64 jloads raw = ([], []))
    ∧ (∀ h p s e : String, pySplitDot raw = [h, p, s] →
        (b64 (h ++ "==")).bind jloads = .error e →
        decode_jwt_segments b64 jloads raw = ([], []))
    ∧ (∀ h p s : String, ∀ dh : JsonObj, ∀ e : String,
        pySplitDot raw = [h, p, s] →
        (b64 (h ++ "==")).bind jloads = .ok dh →
        (b64 (p ++ "==")).bind jloads = .error e →
        decode_jwt_segments b64 jloads raw = (dh, [])) := by
  refine ⟨?_, ?_, ?_⟩
  · intro hne
    rcases hl : pySplitDot raw with _ | ⟨a, _ | ⟨b, _ | ⟨c, _ | ⟨d, t⟩⟩⟩⟩
    · simp [decode_jwt_segments, hl]
    · simp [decode_jwt_segments, hl]
    · simp [decode_jwt_segments, hl]
    · exact absurd hl (hne a b c)
    · simp [decode_jwt_segments, hl]
  · intro h p s e hl hb
    simp [decode_jwt_segments, hl, hb]
  · intro h p s dh e hl hok hberr
    simp [decode_jwt_segments, hl, hok, hberr]

/-- C6 amended witness: a concrete token whose header fails to decode
yields two empty maps. -/
theorem c6_amended_decode_failure_witness :
    decode_jwt_segments (fun _ => .error "bad") (fun _ => .error "bad") "x.y.z" = ([], []) :=
  (c6_amended_decode_failure (fun _ => .error "bad") (fun _ => .error "bad") "x.y.z").2.1
    "x" "y" "z" "bad" rfl rfl

/-- C9: conversation_history is dead state: the module initialises it
empty, no route reads it (two runs of any request from different module
states produce the same response) and no route writes it (the state after
any request equals the state before, and after any request sequence from
process start it is still the empty dict). -/
theorem c9_conversation_history_unused (cfg : Config) (env : AuthEnv)
    (verify : String → String → Except String (List (String × String)))
    (w : ExtWorld) (b64 : String → Except String String)
    (jloads : String → Except String JsonObj)
    (st st2 : AppState) (r : Route) (rs : List Route) :
    (app_step cfg env verify w b64 jloads st r).2 = st
    ∧ (app_step cfg env verify w b64 jloads st r).1 =
        (app_step cfg env verify w b64 jloads st2 r).1
    ∧ (rs.foldl (fun s rr => (app_step cfg env verify w b64 jloads s rr).2)
        { conversation_history := conversation_history }).conversation_history = [] := by
  refine ⟨rfl, rfl, ?_⟩
  induction rs with
  | nil => rfl
  | cons head tail ih => exact ih
